import Mathlib

/-!
# Payment service wiring (`service/wiring.go`)

A shallow embedding of the Go package `service` of the payment service:
the four process-wide Prometheus collectors, the `init` function that
registers them, and `WireUp`, which composes logger, decision service,
logging decorator, endpoints, router and instrumentation middleware into one
HTTP handler.

The package only composes values. Every function it calls is recorded as a
`Call` in a trace, and every value built by a function whose body is outside
`wiring.go` is a constructor term naming the call that built it, so that the
composition can be inspected.
-/

set_option linter.unusedVariables false

namespace Payment

/-! ## Go values that the wiring passes around -/

/-- Go `float32`. A finite value is given by the rational number it denotes;
the wiring and the decision only pass it on and compare it, so no rounding
is involved. Negative zero denotes the rational `0`. -/
inductive float32 where
  | finite (q : ℚ)
  | posInf
  | negInf
  | nan
  deriving DecidableEq

namespace float32

/-- Go `a <= b` on `float32` (IEEE 754: every comparison with NaN is false). -/
def le : float32 → float32 → Bool
  | nan, _ => false
  | _, nan => false
  | negInf, _ => true
  | _, posInf => true
  | finite a, finite b => decide (a ≤ b)
  | finite _, negInf => false
  | posInf, finite _ => false
  | posInf, negInf => false

/-- Go `a >= b` on `float32`. -/
def ge (a b : float32) : Bool := le b a

/-- A value that is neither an infinity nor NaN. -/
def isFinite : float32 → Bool
  | finite _ => true
  | _ => false

end float32

/-- The writers of package `os` a logger can be opened on. -/
inductive os.File where
  | Stdin
  | Stdout
  | Stderr
  deriving DecidableEq

/-- The value generators (`log.Valuer`) of go-kit/log that the wiring binds. -/
inductive log.Valuer where
  | DefaultTimestamp
  | DefaultTimestampUTC
  | DefaultCaller
  deriving DecidableEq

/-- The time zone a timestamp is rendered in. -/
inductive log.Zone where
  | Local
  | UTC
  deriving DecidableEq

/-- What a log call reads from its surroundings when it runs: the clock
(`time.Now()`, as an instant) and the call site that a `Caller` valuer
finds on the stack. -/
structure log.Env where
  now : Nat
  callSite : String
  deriving DecidableEq

/-- One element of a go-kit `keyvals ...interface{}` list. A `valuer` is the
generator itself, not yet run; `time` and `caller` are what the timestamp
and caller generators return when run; `elapsed` stands for a measured
duration. -/
inductive log.Value where
  | str (s : String)
  | float (x : float32)
  | valuer (v : log.Valuer)
  | time (instant : Nat) (zone : log.Zone)
  | caller (site : String)
  | elapsed
  | ErrMissingValue
  deriving DecidableEq

/-- The base loggers of go-kit/log: an encoder on a writer. -/
inductive log.BaseLogger where
  | logfmt (w : os.File)
  | json (w : os.File)
  deriving DecidableEq

/-- A go-kit logger: a base logger, or the struct `context` that `log.With`
returns, with its fields `logger`, `keyvals` and `hasValuer`. -/
inductive log.Logger where
  | base (b : log.BaseLogger)
  | context (logger : log.BaseLogger) (keyvals : List log.Value) (hasValuer : Bool)
  deriving DecidableEq

namespace log

/-- Running a generator: `DefaultTimestamp` is `time.Now()`,
`DefaultTimestampUTC` is `time.Now().UTC()`, `DefaultCaller` is the call
site. -/
def Valuer.eval : Valuer → Env → Value
  | .DefaultTimestamp, env => .time env.now .Local
  | .DefaultTimestampUTC, env => .time env.now .UTC
  | .DefaultCaller, env => .caller env.callSite

/-- Go-kit `containsValuer`: `for i := 1; i < len(keyvals); i += 2`, true at
the first value position that holds a `Valuer`. -/
def containsValuer : List Value → Bool
  | _ :: .valuer _ :: _ => true
  | _ :: _ :: rest => containsValuer rest
  | _ => false

/-- Go-kit `bindValues`: `for i := 1; i < len(keyvals); i += 2`, a `Valuer`
at a value position is replaced by what it returns. -/
def bindValues (env : Env) : List Value → List Value
  | k :: .valuer v :: rest => k :: v.eval env :: bindValues env rest
  | k :: x :: rest => k :: x :: bindValues env rest
  | rest => rest

/-- Go-kit `log.NewLogfmtLogger(w)`: the logfmt base logger on `w`. -/
def NewLogfmtLogger (w : os.File) : Logger :=
  .base (.logfmt w)

/-- Go-kit `newContext(logger)`: a `context` is returned as it is, any other
logger is put into a fresh `context` without key-value pairs. -/
def newContext : Logger → BaseLogger × List Value × Bool
  | .context logger keyvals hasValuer => (logger, keyvals, hasValuer)
  | .base b => (b, [], false)

/-- Go-kit `log.With(logger, keyvals...)`: with no `keyvals` the logger is
returned as it is; otherwise the new context holds the old pairs followed by
`keyvals`, padded with `ErrMissingValue` when the length is odd, and
`hasValuer` is `l.hasValuer || containsValuer(keyvals)`. -/
def With (logger : Logger) (keyvals : List Value) : Logger :=
  if keyvals.length = 0 then logger
  else
    let l := newContext logger
    let kvs := l.2.1 ++ keyvals
    let kvs := if kvs.length % 2 ≠ 0 then kvs ++ [Value.ErrMissingValue] else kvs
    .context l.1 kvs (l.2.2 || containsValuer keyvals)

/-- The method `Log(keyvals...)`, giving the key-value list that reaches the
encoder of the base logger. A base logger passes `keyvals` on as they are.
Go-kit `(*context).Log` appends `keyvals` to the bound pairs, pads an odd
length with `ErrMissingValue`, and, only if `hasValuer` is set, takes a copy
of the bound pairs when `keyvals` is empty and runs `bindValues` on the
first `len(l.keyvals)` elements. -/
def Logger.Log (l : Logger) (keyvals : List Value) (env : Env) : List Value :=
  match l with
  | .base _ => keyvals
  | .context _ bound hasValuer =>
    let kvs := bound ++ keyvals
    let kvs := if kvs.length % 2 ≠ 0 then kvs ++ [Value.ErrMissingValue] else kvs
    if hasValuer then
      let kvs := if keyvals.length = 0 then bound else kvs
      bindValues env (kvs.take bound.length) ++ kvs.drop bound.length
    else kvs

end log

/-- The `Service` capability. Both implementations live outside `wiring.go`;
a value records which constructor call built it and with which arguments. -/
inductive Service where
  | NewAuthorisationService (declineOverAmount : float32)
  | LoggingMiddleware (logger : log.Logger) (next : Service)
  deriving DecidableEq

/-- A `context.Context` value. The wiring never looks inside one; `id` tells
two contexts apart. -/
structure context.Context where
  id : Nat
  deriving DecidableEq

/-- An opentracing `Tracer` value. The wiring never looks inside one; `id`
tells two tracers apart. -/
structure stdopentracing.Tracer where
  id : Nat
  deriving DecidableEq

/-- The result of `MakeEndpoints(service, tracer)`, whose body is outside
`wiring.go`: the call with its arguments. -/
inductive Endpoints where
  | MakeEndpoints (s : Service) (tracer : stdopentracing.Tracer)
  deriving DecidableEq

/-- The `*mux.Router` returned by `MakeHTTPHandler(ctx, e, logger, tracer)`,
whose body is outside `wiring.go`: the call with its arguments. -/
inductive Router where
  | MakeHTTPHandler (ctx : context.Context) (e : Endpoints) (logger : log.Logger)
      (tracer : stdopentracing.Tracer)
  deriving DecidableEq

/-! ## Prometheus collectors and the registry -/

/-- What can make the package's initialisation panic. -/
inductive Panic where
  | exponentialBuckets (reason : String)
  | alreadyRegistered (fqName : String)
  deriving DecidableEq

/-- The two kinds of metric vector the package creates. -/
inductive prometheus.Kind where
  | HistogramVec
  | GaugeVec
  deriving DecidableEq

/-- The fields of `prometheus.HistogramOpts` that the package sets. -/
structure prometheus.HistogramOpts where
  Name : String
  Help : String
  Buckets : List ℚ
  deriving DecidableEq

/-- The fields of `prometheus.GaugeOpts` that the package sets. -/
structure prometheus.GaugeOpts where
  Name : String
  Help : String
  deriving DecidableEq

/-- A metric vector: its kind, its options and its variable label names, in
the order given at creation. A gauge has no buckets. -/
structure prometheus.Collector where
  kind : prometheus.Kind
  Name : String
  Help : String
  Buckets : List ℚ
  labelNames : List String
  deriving DecidableEq

namespace prometheus

/-- The library's `prometheus.DefBuckets`, as the decimal literals it is
written with. -/
def DefBuckets : List ℚ := [0.005, 0.01, 0.025, 0.05, 0.1, 0.25, 0.5, 1, 2.5, 5, 10]

/-- The loop of `ExponentialBuckets`: `buckets[i] = start; start *= factor`
for each of `count` slots. -/
def exponentialLoop : Nat → ℚ → ℚ → List ℚ
  | 0, _, _ => []
  | n + 1, start, factor => start :: exponentialLoop n (start * factor) factor

/-- The library's `prometheus.ExponentialBuckets(start, factor, count)`. It
panics when `count < 1`, `start <= 0` or `factor <= 1`. The `float64`
products are taken over the rationals; for the arguments `(100, 10, 6)`
every product is an integer below `2^53`, hence exact in `float64`. -/
def ExponentialBuckets (start factor : ℚ) (count : Int) : Except Panic (List ℚ) :=
  if count < 1 then .error (.exponentialBuckets "ExponentialBuckets needs a positive count")
  else if start ≤ 0 then .error (.exponentialBuckets "ExponentialBuckets needs a positive start value")
  else if factor ≤ 1 then .error (.exponentialBuckets "ExponentialBuckets needs a factor greater than 1")
  else .ok (exponentialLoop count.toNat start factor)

/-- The library's `prometheus.NewHistogramVec(opts, labelNames)`. -/
def NewHistogramVec (opts : HistogramOpts) (labelNames : List String) : Collector :=
  { kind := .HistogramVec, Name := opts.Name, Help := opts.Help, Buckets := opts.Buckets,
    labelNames := labelNames }

/-- The library's `prometheus.NewGaugeVec(opts, labelNames)`. -/
def NewGaugeVec (opts : GaugeOpts) (labelNames : List String) : Collector :=
  { kind := .GaugeVec, Name := opts.Name, Help := opts.Help, Buckets := [],
    labelNames := labelNames }

/-- The default registry (`prometheus.DefaultRegisterer`) as explicit state:
the collectors registered so far, oldest first. -/
abbrev Registry := List Collector

/-- The library's `Register` for a collector without constant labels: its
descriptor is identified by the fully-qualified name, and registering a name
that is already present fails (as a duplicate, or as a conflicting
descriptor when label names or help differ). -/
def Register (r : Registry) (c : Collector) : Except Panic Registry :=
  if r.any (fun d => d.Name == c.Name) then .error (.alreadyRegistered c.Name)
  else .ok (r ++ [c])

/-- The library's `prometheus.MustRegister(cs...)`: registers each collector
in turn and panics on the first error. -/
def MustRegister (r : Registry) : List Collector → Except Panic Registry
  | [] => .ok r
  | c :: cs => do
    let r ← Register r c
    MustRegister r cs

end prometheus

/-! ## Instrumentation middleware (`weaveworks/common/middleware`) -/

/-- The struct `middleware.Instrument` with the five fields the wiring
sets. -/
structure middleware.Instrument where
  Duration : prometheus.Collector
  RouteMatcher : Router
  InflightRequests : prometheus.Collector
  RequestBodySize : prometheus.Collector
  ResponseBodySize : prometheus.Collector
  deriving DecidableEq

/-- An `http.Handler` as the wiring can build it: the router itself, or the
handler that `Instrument.Wrap` returns around an inner handler. -/
inductive Handler where
  | router (r : Router)
  | instrumented (i : middleware.Instrument) (next : Handler)
  deriving DecidableEq

/-- The interface `middleware.Interface`, with its two implementations that
occur here: the `Instrument` struct and the function adapter
`middleware.Func`. -/
inductive middleware.Interface where
  | Instrument (i : middleware.Instrument)
  | Func (f : Handler → Handler)

namespace middleware

/-- The method `Wrap` of `middleware.Interface`. -/
def Interface.Wrap : Interface → Handler → Handler
  | .Instrument i, next => .instrumented i next
  | .Func f, next => f next

/-- The library's `middleware.Merge(middlesware...)`: a `Func` whose body
runs `next = middlesware[i].Wrap(next)` for `i` from the last index down to
the first. -/
def Merge (middlesware : List Interface) : Interface :=
  .Func fun next => middlesware.reverse.foldl (fun next m => m.Wrap next) next

end middleware

/-! ## Calls and traces -/

/-- One call made by the package, with the arguments it was made with. -/
inductive Call where
  | ExponentialBuckets (start factor : ℚ) (count : Int)
  | NewHistogramVec (opts : prometheus.HistogramOpts) (labelNames : List String)
  | NewGaugeVec (opts : prometheus.GaugeOpts) (labelNames : List String)
  | MustRegister (cs : List prometheus.Collector)
  | NewLogfmtLogger (w : os.File)
  | With (logger : log.Logger) (keyvals : List log.Value)
  | NewAuthorisationService (declineAmount : float32)
  | LoggingMiddleware (logger : log.Logger) (next : Service)
  | MakeEndpoints (s : Service) (tracer : stdopentracing.Tracer)
  | MakeHTTPHandler (ctx : context.Context) (e : Endpoints) (logger : log.Logger)
      (tracer : stdopentracing.Tracer)
  | Merge (middlesware : List middleware.Interface)
  | Wrap (m : middleware.Interface) (next : Handler)

/-- A Go computation of the package: it records the calls it makes, oldest
first, and either returns a value or panics. -/
abbrev Go (α : Type) : Type := StateT (List Call) (Except Panic) α

/-- Record the call `c`, which returns `r`. -/
def call {α : Type} (c : Call) (r : α) : Go α :=
  fun calls => .ok (r, calls ++ [c])

/-- Record the call `c`, which returns a value or panics. -/
def callE {α : Type} (c : Call) (r : Except Panic α) : Go α :=
  fun calls => match r with
    | .ok a => .ok (a, calls ++ [c])
    | .error e => .error e

/-! ## The package-level variables and `init` -/

/-- Package variable `HTTPLatency` (its initialiser). -/
def HTTPLatency : Go prometheus.Collector := do
  let opts : prometheus.HistogramOpts := {
    Name := "http_request_duration_seconds",
    Help := "Time (in seconds) spent serving HTTP requests.",
    Buckets := prometheus.DefBuckets
  }
  call (.NewHistogramVec opts ["method", "path", "status_code", "isWS"])
    (prometheus.NewHistogramVec opts ["method", "path", "status_code", "isWS"])

/-- Package variable `HTTPRequestActive` (its initialiser). -/
def HTTPRequestActive : Go prometheus.Collector := do
  let opts : prometheus.GaugeOpts := {
    Name := "http_request_active",
    Help := "The number of HTTP requests currently being handled."
  }
  call (.NewGaugeVec opts ["method", "path"]) (prometheus.NewGaugeVec opts ["method", "path"])

/-- Package variable `HTTPRequestSizeBytes` (its initialiser). -/
def HTTPRequestSizeBytes : Go prometheus.Collector := do
  -- Exponential buckets are better for sizes (e.g., 100B to 10MB).
  let buckets ← callE (.ExponentialBuckets 100 10 6) (prometheus.ExponentialBuckets 100 10 6)
  let opts : prometheus.HistogramOpts := {
    Name := "http_request_size_bytes",
    Help := "Size of HTTP request bodies in bytes.",
    Buckets := buckets
  }
  call (.NewHistogramVec opts ["method", "handler"])
    (prometheus.NewHistogramVec opts ["method", "handler"])

/-- Package variable `HTTPResponseSizeBytes` (its initialiser). -/
def HTTPResponseSizeBytes : Go prometheus.Collector := do
  let buckets ← callE (.ExponentialBuckets 100 10 6) (prometheus.ExponentialBuckets 100 10 6)
  let opts : prometheus.HistogramOpts := {
    Name := "http_response_size_bytes",
    Help := "Size of HTTP response bodies in bytes.",
    Buckets := buckets
  }
  call (.NewHistogramVec opts ["method", "handler"])
    (prometheus.NewHistogramVec opts ["method", "handler"])

/-- The package-level variables of `wiring.go`, as explicit state. -/
structure Globals where
  HTTPLatency : prometheus.Collector
  HTTPRequestActive : prometheus.Collector
  HTTPRequestSizeBytes : prometheus.Collector
  HTTPResponseSizeBytes : prometheus.Collector
  deriving DecidableEq

/-- The `var ( ... )` block: the four initialisers run once, in order, when
the package is initialised. -/
def initVars : Go Globals := do
  let a ← HTTPLatency
  let b ← HTTPRequestActive
  let c ← HTTPRequestSizeBytes
  let d ← HTTPResponseSizeBytes
  pure { HTTPLatency := a, HTTPRequestActive := b, HTTPRequestSizeBytes := c,
         HTTPResponseSizeBytes := d }

/-- Go `func init()`: four `prometheus.MustRegister` calls on the default
registry, which is passed and returned explicitly. -/
def init (g : Globals) (r : prometheus.Registry) : Go prometheus.Registry := do
  let r ← callE (.MustRegister [g.HTTPLatency]) (prometheus.MustRegister r [g.HTTPLatency])
  let r ← callE (.MustRegister [g.HTTPRequestActive])
    (prometheus.MustRegister r [g.HTTPRequestActive])
  let r ← callE (.MustRegister [g.HTTPRequestSizeBytes])
    (prometheus.MustRegister r [g.HTTPRequestSizeBytes])
  let r ← callE (.MustRegister [g.HTTPResponseSizeBytes])
    (prometheus.MustRegister r [g.HTTPResponseSizeBytes])
  pure r

/-- Package initialisation as the Go runtime performs it: the variable
initialisers, then `init`. -/
def packageInit (r : prometheus.Registry) : Go (Globals × prometheus.Registry) := do
  let g ← initVars
  let r ← init g r
  pure (g, r)

/-! ## `WireUp` -/

/-- Go `func WireUp(ctx, declineAmount, tracer, serviceName) (http.Handler, log.Logger)`.
The package variables are read from `g`. -/
def WireUp (g : Globals) (ctx : context.Context) (declineAmount : float32)
    (tracer : stdopentracing.Tracer) (serviceName : String) : Go (Handler × log.Logger) := do
  -- Log domain.
  let logger ← call (.NewLogfmtLogger .Stderr) (log.NewLogfmtLogger .Stderr)
  let logger ← call (.With logger [.str "ts", .valuer .DefaultTimestampUTC])
    (log.With logger [.str "ts", .valuer .DefaultTimestampUTC])
  let logger ← call (.With logger [.str "caller", .valuer .DefaultCaller])
    (log.With logger [.str "caller", .valuer .DefaultCaller])
  -- Service domain.
  let service ← call (.NewAuthorisationService declineAmount)
    (Service.NewAuthorisationService declineAmount)
  let service ← call (.LoggingMiddleware logger service) (Service.LoggingMiddleware logger service)
  -- Endpoint domain.
  let endpoints ← call (.MakeEndpoints service tracer) (Endpoints.MakeEndpoints service tracer)
  let router ← call (.MakeHTTPHandler ctx endpoints logger tracer)
    (Router.MakeHTTPHandler ctx endpoints logger tracer)
  let httpMiddleware : List middleware.Interface := [
    .Instrument {
      Duration := g.HTTPLatency,
      RouteMatcher := router,
      InflightRequests := g.HTTPRequestActive,
      RequestBodySize := g.HTTPRequestSizeBytes,
      ResponseBodySize := g.HTTPResponseSizeBytes
    }
  ]
  -- Handler
  let merged ← call (.Merge httpMiddleware) (middleware.Merge httpMiddleware)
  let handler ← call (.Wrap merged (.router router)) (merged.Wrap (.router router))
  return (handler, logger)

/-! ## The decision service and the logging decorator

Their code is outside `wiring.go`; the definitions of this section follow
the specification of the service (its sections 3, 4.1 and 4.2). -/

/-- Modelled from the spec: the type `AuthorisationRequest`, declared outside
`wiring.go`; an immutable value holding the transaction amount. -/
structure AuthorisationRequest where
  amount : float32
  deriving DecidableEq

/-- Modelled from the spec: the enumerated decision of an
`AuthorisationResponse`, declared outside `wiring.go`. -/
inductive Decision where
  | Approved
  | Declined
  deriving DecidableEq

/-- Modelled from the spec: the type `AuthorisationResponse`, declared
outside `wiring.go`. -/
structure AuthorisationResponse where
  decision : Decision
  deriving DecidableEq

/-- Modelled from the spec: the typed errors the decision service returns,
declared outside `wiring.go`. -/
inductive AuthoriseError where
  | InvalidRequest
  deriving DecidableEq

/-- Modelled from the spec: what a call of `Authorise` (outside `wiring.go`)
does besides returning: the base service evaluates its rule once, a logging
decorator emits one log entry, given for each clock reading and call site
it can be written at. -/
inductive Observation where
  | evaluated (declineOverAmount : float32) (req : AuthorisationRequest)
  | logged (logger : log.Logger) (entry : log.Env → List log.Value)

/-- Modelled from the spec: the rule of the base decision service
(`NewAuthorisationService(...).Authorise`, outside `wiring.go`). The amount
must be finite and non-negative, otherwise `InvalidRequest`; the decision is
Declined if the amount meets or exceeds the threshold, Approved otherwise. -/
def evaluate (declineOverAmount : float32) (req : AuthorisationRequest) :
    Except AuthoriseError AuthorisationResponse :=
  if req.amount.isFinite && float32.ge req.amount (.finite 0) then
    if float32.ge req.amount declineOverAmount then .ok { decision := .Declined }
    else .ok { decision := .Approved }
  else .error .InvalidRequest

/-- Modelled from the spec: the key-value pairs the logging decorator
records for one call (outside `wiring.go`): the input summary, the elapsed
time, and either the decision or the error. -/
def logKeyvals (req : AuthorisationRequest) :
    Except AuthoriseError AuthorisationResponse → List log.Value
  | .ok { decision := .Approved } =>
    [.str "method", .str "Authorise", .str "amount", .float req.amount,
     .str "result", .str "approved", .str "took", .elapsed]
  | .ok { decision := .Declined } =>
    [.str "method", .str "Authorise", .str "amount", .float req.amount,
     .str "result", .str "declined", .str "took", .elapsed]
  | .error .InvalidRequest =>
    [.str "method", .str "Authorise", .str "amount", .float req.amount,
     .str "err", .str "InvalidRequest", .str "took", .elapsed]

/-- Modelled from the spec: the method `Authorise(ctx, req)` of the two
`Service` implementations (outside `wiring.go`). The base service evaluates
its rule; the logging decorator delegates to its inner service, emits one
log entry through its logger and returns the inner result. The second
component lists what the call did, oldest first. -/
def Service.Authorise : Service → context.Context → AuthorisationRequest →
    Except AuthoriseError AuthorisationResponse × List Observation
  | .NewAuthorisationService declineOverAmount, _, req =>
    (evaluate declineOverAmount req, [.evaluated declineOverAmount req])
  | .LoggingMiddleware logger next, ctx, req =>
    let out := next.Authorise ctx req
    (out.1, out.2 ++ [.logged logger (logger.Log (logKeyvals req out.1))])

/-! ## Observers on calls, traces and composed values -/

/-- The `Service` argument of a `MakeEndpoints` call. -/
def Call.serviceForEndpoints : Call → Option Service
  | .MakeEndpoints s _ => some s
  | _ => none

/-- The `Service` instance that a call builds, if it builds one. -/
def Call.builtService : Call → Option Service
  | .NewAuthorisationService declineAmount => some (.NewAuthorisationService declineAmount)
  | .LoggingMiddleware logger next => some (.LoggingMiddleware logger next)
  | _ => none

/-- The number of logging decorators around the base service. -/
def Service.decorators : Service → Nat
  | .NewAuthorisationService _ => 0
  | .LoggingMiddleware _ next => next.decorators + 1

/-- The base decision service at the bottom of a decorator chain. -/
def Service.base : Service → Service
  | .NewAuthorisationService declineOverAmount => .NewAuthorisationService declineOverAmount
  | .LoggingMiddleware _ next => next.base

/-- The layers of the request path. -/
inductive Layer where
  | Instrumentation
  | Router
  | Endpoints
  | LoggingDecorator
  | DecisionService
  deriving DecidableEq

/-- The layers of a service, outermost first. -/
def Service.layers : Service → List Layer
  | .NewAuthorisationService _ => [.DecisionService]
  | .LoggingMiddleware _ next => .LoggingDecorator :: next.layers

/-- The layers of a router, outermost first. -/
def Router.layers : Router → List Layer
  | .MakeHTTPHandler _ (.MakeEndpoints s _) _ _ => .Router :: .Endpoints :: s.layers

/-- The layers a request passes through in a handler, outermost first. -/
def Handler.layers : Handler → List Layer
  | .router r => r.layers
  | .instrumented _ next => .Instrumentation :: next.layers

/-- The service a router dispatches to. -/
def Router.service : Router → Service
  | .MakeHTTPHandler _ (.MakeEndpoints s _) _ _ => s

/-- The `Instrument` values of a handler, outermost first. -/
def Handler.instruments : Handler → List middleware.Instrument
  | .router _ => []
  | .instrumented i next => i :: next.instruments

/-- The collectors an `Instrument` holds, in field order (the route matcher
left out). -/
def middleware.Instrument.collectors (i : middleware.Instrument) : List prometheus.Collector :=
  [i.Duration, i.InflightRequests, i.RequestBodySize, i.ResponseBodySize]

/-- Whether a call creates a collector. -/
def Call.createsCollector : Call → Bool
  | .NewHistogramVec _ _ => true
  | .NewGaugeVec _ _ => true
  | _ => false

/-- The collectors a call registers. -/
def Call.registers : Call → List prometheus.Collector
  | .MustRegister cs => cs
  | _ => []

/-- The logger handed to the logging decorator by a call. -/
def Call.decoratorLogger : Call → Option log.Logger
  | .LoggingMiddleware logger _ => some logger
  | _ => none

/-- The logger handed to the router by a call. -/
def Call.routerLogger : Call → Option log.Logger
  | .MakeHTTPHandler _ _ logger _ => some logger
  | _ => none

/-- The name of the function called. -/
def Call.name : Call → String
  | .ExponentialBuckets _ _ _ => "prometheus.ExponentialBuckets"
  | .NewHistogramVec _ _ => "prometheus.NewHistogramVec"
  | .NewGaugeVec _ _ => "prometheus.NewGaugeVec"
  | .MustRegister _ => "prometheus.MustRegister"
  | .NewLogfmtLogger _ => "log.NewLogfmtLogger"
  | .With _ _ => "log.With"
  | .NewAuthorisationService _ => "NewAuthorisationService"
  | .LoggingMiddleware _ _ => "LoggingMiddleware"
  | .MakeEndpoints _ _ => "MakeEndpoints"
  | .MakeHTTPHandler _ _ _ _ => "MakeHTTPHandler"
  | .Merge _ => "middleware.Merge"
  | .Wrap _ _ => "Wrap"

/-- The `context.Context` arguments of a call. -/
def Call.contexts : Call → List context.Context
  | .MakeHTTPHandler ctx _ _ _ => [ctx]
  | _ => []

/-- The `Tracer` arguments of a call. -/
def Call.tracers : Call → List stdopentracing.Tracer
  | .MakeEndpoints _ tracer => [tracer]
  | .MakeHTTPHandler _ _ _ tracer => [tracer]
  | _ => []

/-! ## Evaluation lemmas for the initialisers and `init` -/

/-- The bucket call of the two size histograms does not panic and yields six
boundaries. -/
theorem ExponentialBuckets_sizes :
    prometheus.ExponentialBuckets 100 10 6 = .ok [100, 1000, 10000, 100000, 1000000, 10000000] := by
  norm_num [prometheus.ExponentialBuckets, prometheus.exponentialLoop]

/-- The loop fills exactly `count` slots. -/
theorem exponentialLoop_length (n : Nat) (start factor : ℚ) :
    (prometheus.exponentialLoop n start factor).length = n := by
  induction n generalizing start with
  | zero => rfl
  | succ n ih => simp [prometheus.exponentialLoop, ih]

/-- Slot `i` of the loop holds `start * factor ^ i`. -/
theorem exponentialLoop_getElem? (n : Nat) (start factor : ℚ) (i : Nat) (h : i < n) :
    (prometheus.exponentialLoop n start factor)[i]? = some (start * factor ^ i) := by
  induction n generalizing start i with
  | zero => omega
  | succ n ih =>
    cases i with
    | zero => simp [prometheus.exponentialLoop]
    | succ i =>
      simp only [prometheus.exponentialLoop, List.getElem?_cons_succ]
      rw [ih (start * factor) i (by omega)]
      congr 1
      ring

/-- The variable initialisers never panic: the four collectors they build and
the six calls they make. -/
theorem initVars_run (calls0 : List Call) :
    initVars calls0 = .ok (
      { HTTPLatency := {
          kind := .HistogramVec, Name := "http_request_duration_seconds",
          Help := "Time (in seconds) spent serving HTTP requests.",
          Buckets := prometheus.DefBuckets,
          labelNames := ["method", "path", "status_code", "isWS"] },
        HTTPRequestActive := {
          kind := .GaugeVec, Name := "http_request_active",
          Help := "The number of HTTP requests currently being handled.",
          Buckets := [], labelNames := ["method", "path"] },
        HTTPRequestSizeBytes := {
          kind := .HistogramVec, Name := "http_request_size_bytes",
          Help := "Size of HTTP request bodies in bytes.",
          Buckets := [100, 1000, 10000, 100000, 1000000, 10000000],
          labelNames := ["method", "handler"] },
        HTTPResponseSizeBytes := {
          kind := .HistogramVec, Name := "http_response_size_bytes",
          Help := "Size of HTTP response bodies in bytes.",
          Buckets := [100, 1000, 10000, 100000, 1000000, 10000000],
          labelNames := ["method", "handler"] } },
      calls0 ++ [
        .NewHistogramVec ⟨"http_request_duration_seconds",
          "Time (in seconds) spent serving HTTP requests.", prometheus.DefBuckets⟩
          ["method", "path", "status_code", "isWS"],
        .NewGaugeVec ⟨"http_request_active",
          "The number of HTTP requests currently being handled."⟩ ["method", "path"],
        .ExponentialBuckets 100 10 6,
        .NewHistogramVec ⟨"http_request_size_bytes", "Size of HTTP request bodies in bytes.",
          [100, 1000, 10000, 100000, 1000000, 10000000]⟩ ["method", "handler"],
        .ExponentialBuckets 100 10 6,
        .NewHistogramVec ⟨"http_response_size_bytes", "Size of HTTP response bodies in bytes.",
          [100, 1000, 10000, 100000, 1000000, 10000000]⟩ ["method", "handler"]]) := by
  simp [initVars, HTTPLatency, HTTPRequestActive, HTTPRequestSizeBytes, HTTPResponseSizeBytes,
    call, callE, bind, StateT.bind, Except.bind, pure, StateT.pure, Except.pure,
    ExponentialBuckets_sizes, prometheus.NewHistogramVec, prometheus.NewGaugeVec]

/-- Registering one collector fails exactly when its name is present. -/
theorem MustRegister_single (r : prometheus.Registry) (c : prometheus.Collector) :
    prometheus.MustRegister r [c] =
      if r.any (fun d => d.Name == c.Name) then .error (.alreadyRegistered c.Name)
      else .ok (r ++ [c]) := by
  simp only [prometheus.MustRegister, prometheus.Register]
  split <;> rfl

/-- On a registry without the four names, which are pairwise distinct, `init`
returns and appends the four collectors in source order. -/
theorem init_run (g : Globals) (r : prometheus.Registry) (calls0 : List Call)
    (hfresh : ∀ c ∈ r, c.Name ∉ [g.HTTPLatency.Name, g.HTTPRequestActive.Name,
      g.HTTPRequestSizeBytes.Name, g.HTTPResponseSizeBytes.Name])
    (hnodup : [g.HTTPLatency.Name, g.HTTPRequestActive.Name,
      g.HTTPRequestSizeBytes.Name, g.HTTPResponseSizeBytes.Name].Nodup) :
    init g r calls0 = .ok (
      r ++ [g.HTTPLatency, g.HTTPRequestActive, g.HTTPRequestSizeBytes, g.HTTPResponseSizeBytes],
      calls0 ++ [.MustRegister [g.HTTPLatency], .MustRegister [g.HTTPRequestActive],
        .MustRegister [g.HTTPRequestSizeBytes], .MustRegister [g.HTTPResponseSizeBytes]]) := by
  simp only [List.nodup_cons, List.mem_cons, List.mem_singleton, not_or, List.not_mem_nil,
    not_false_eq_true, List.nodup_nil, and_true] at hnodup hfresh
  obtain ⟨⟨h12, h13, h14⟩, ⟨h23, h24⟩, h34⟩ := hnodup
  have a1 : r.any (fun d => d.Name == g.HTTPLatency.Name) = false := by
    simp only [List.any_eq_false, beq_iff_eq]
    exact fun c hc => (hfresh c hc).1
  have a2 : (r ++ [g.HTTPLatency]).any (fun d => d.Name == g.HTTPRequestActive.Name) = false := by
    simp only [List.any_eq_false, beq_iff_eq, List.mem_append, List.mem_singleton]
    rintro c (hc | rfl)
    · exact (hfresh c hc).2.1
    · exact h12
  have a3 : (r ++ [g.HTTPLatency, g.HTTPRequestActive]).any
      (fun d => d.Name == g.HTTPRequestSizeBytes.Name) = false := by
    simp only [List.any_eq_false, beq_iff_eq, List.mem_append, List.mem_cons, List.mem_singleton,
      List.not_mem_nil, or_false]
    rintro c (hc | rfl | rfl)
    · exact (hfresh c hc).2.2.1
    · exact h13
    · exact h23
  have a4 : (r ++ [g.HTTPLatency, g.HTTPRequestActive, g.HTTPRequestSizeBytes]).any
      (fun d => d.Name == g.HTTPResponseSizeBytes.Name) = false := by
    simp only [List.any_eq_false, beq_iff_eq, List.mem_append, List.mem_cons, List.mem_singleton,
      List.not_mem_nil, or_false]
    rintro c (hc | rfl | rfl | rfl)
    · exact (hfresh c hc).2.2.2
    · exact h14
    · exact h24
    · exact h34
  simp only [init, callE, bind, StateT.bind, Except.bind, pure, StateT.pure, Except.pure,
    MustRegister_single, a1, a2, a3, a4, List.append_assoc, List.singleton_append,
    List.cons_append, List.nil_append, Bool.false_eq_true, if_false]

/-- A sequence of two steps that returns: both steps returned. -/
theorem Go_bind_inv {α β : Type} (x : Go α) (f : α → Go β) (s : List Call) (p : β × List Call)
    (h : (x >>= f) s = .ok p) : ∃ a s1, x s = .ok (a, s1) ∧ f a s1 = .ok p := by
  simp only [bind, StateT.bind, Except.bind] at h
  cases hx : x s with
  | error e => rw [hx] at h; cases h
  | ok v => rw [hx] at h; exact ⟨v.1, v.2, rfl, h⟩

/-- A `MustRegister` call that returned appended its collector. -/
theorem callE_MustRegister_inv (r r1 : prometheus.Registry) (c : prometheus.Collector)
    (s s1 : List Call)
    (h : callE (.MustRegister [c]) (prometheus.MustRegister r [c]) s = .ok (r1, s1)) :
    r1 = r ++ [c] ∧ s1 = s ++ [.MustRegister [c]] := by
  simp only [callE, MustRegister_single] at h
  split_ifs at h
  simp only [Except.ok.injEq, Prod.mk.injEq] at h
  exact ⟨h.1.symm, h.2.symm⟩

/-- Whenever `init` returns, it has appended the four collectors and made four
`MustRegister` calls. -/
theorem init_inv (g : Globals) (r r1 : prometheus.Registry) (calls0 calls1 : List Call)
    (h : init g r calls0 = .ok (r1, calls1)) :
    r1 = r ++ [g.HTTPLatency, g.HTTPRequestActive, g.HTTPRequestSizeBytes,
      g.HTTPResponseSizeBytes] ∧
    calls1 = calls0 ++ [.MustRegister [g.HTTPLatency], .MustRegister [g.HTTPRequestActive],
      .MustRegister [g.HTTPRequestSizeBytes], .MustRegister [g.HTTPResponseSizeBytes]] := by
  unfold init at h
  obtain ⟨ra, sa, ha, h⟩ := Go_bind_inv _ _ _ _ h
  obtain ⟨rb, sb, hb, h⟩ := Go_bind_inv _ _ _ _ h
  obtain ⟨rc, sc, hc, h⟩ := Go_bind_inv _ _ _ _ h
  obtain ⟨rd, sd, hd, h⟩ := Go_bind_inv _ _ _ _ h
  obtain ⟨rfl, rfl⟩ := callE_MustRegister_inv _ _ _ _ _ ha
  obtain ⟨rfl, rfl⟩ := callE_MustRegister_inv _ _ _ _ _ hb
  obtain ⟨rfl, rfl⟩ := callE_MustRegister_inv _ _ _ _ _ hc
  obtain ⟨rfl, rfl⟩ := callE_MustRegister_inv _ _ _ _ _ hd
  simp only [pure, StateT.pure, Except.pure, Except.ok.injEq, Prod.mk.injEq] at h
  obtain ⟨rfl, rfl⟩ := h
  simp

/-- Whenever package initialisation returns, its variables are those of the
initialisers and its registry is the old one followed by the four
collectors. -/
theorem packageInit_inv (r r1 : prometheus.Registry) (g : Globals) (calls0 calls1 : List Call)
    (h : packageInit r calls0 = .ok ((g, r1), calls1)) :
    ∃ callsV, initVars calls0 = .ok (g, callsV) ∧
      r1 = r ++ [g.HTTPLatency, g.HTTPRequestActive, g.HTTPRequestSizeBytes,
        g.HTTPResponseSizeBytes] ∧
      calls1 = callsV ++ [.MustRegister [g.HTTPLatency], .MustRegister [g.HTTPRequestActive],
        .MustRegister [g.HTTPRequestSizeBytes], .MustRegister [g.HTTPResponseSizeBytes]] := by
  unfold packageInit at h
  obtain ⟨g1, sv, hv, h⟩ := Go_bind_inv _ _ _ _ h
  obtain ⟨r2, s2, hi, h⟩ := Go_bind_inv _ _ _ _ h
  simp only [pure, StateT.pure, Except.pure, Except.ok.injEq, Prod.mk.injEq] at h
  obtain ⟨⟨rfl, rfl⟩, rfl⟩ := h
  obtain ⟨h1, h2⟩ := init_inv _ _ _ _ _ hi
  exact ⟨sv, hv, h1, h2⟩

/-- Package initialisation returns on a registry without the four names. -/
theorem packageInit_run (r : prometheus.Registry) (g : Globals) (calls0 callsV : List Call)
    (hv : initVars calls0 = .ok (g, callsV))
    (hfresh : ∀ c ∈ r, c.Name ∉ [g.HTTPLatency.Name, g.HTTPRequestActive.Name,
      g.HTTPRequestSizeBytes.Name, g.HTTPResponseSizeBytes.Name])
    (hnodup : [g.HTTPLatency.Name, g.HTTPRequestActive.Name,
      g.HTTPRequestSizeBytes.Name, g.HTTPResponseSizeBytes.Name].Nodup) :
    packageInit r calls0 = .ok (
      (g, r ++ [g.HTTPLatency, g.HTTPRequestActive, g.HTTPRequestSizeBytes,
        g.HTTPResponseSizeBytes]),
      callsV ++ [.MustRegister [g.HTTPLatency], .MustRegister [g.HTTPRequestActive],
        .MustRegister [g.HTTPRequestSizeBytes], .MustRegister [g.HTTPResponseSizeBytes]]) := by
  have hi := init_run g r callsV hfresh hnodup
  simp only [packageInit, bind, StateT.bind, Except.bind, hv, hi, pure, StateT.pure, Except.pure]

/-- Running `init` on a registry that already holds the latency histogram
panics at the first `MustRegister`. -/
theorem init_panics_when_latency_registered (g : Globals) (r : prometheus.Registry)
    (calls0 : List Call) :
    init g (r ++ [g.HTTPLatency]) calls0 = .error (.alreadyRegistered g.HTTPLatency.Name) := by
  simp [init, callE, bind, StateT.bind, Except.bind, MustRegister_single]

/-- A context logger whose `hasValuer` flag is not set hands its bound
generators on without running them. -/
theorem Log_without_hasValuer_binds_nothing (b : log.BaseLogger) (bound keyvals : List log.Value)
    (env : log.Env) :
    (log.Logger.context b bound false).Log keyvals env =
      bound ++ keyvals ++
        (if (bound ++ keyvals).length % 2 ≠ 0 then [log.Value.ErrMissingValue] else []) := by
  by_cases h : (bound.length + keyvals.length) % 2 = 1 <;> simp [log.Logger.Log, h]

/-- A base logger hands on the pairs of the call as they are. -/
theorem Log_base_passes_keyvals (b : log.BaseLogger) (keyvals : List log.Value) (env : log.Env) :
    (log.Logger.base b).Log keyvals env = keyvals := rfl

/-! ## The composition built by `WireUp` -/

/-- C1: for every input `WireUp` returns, and the one service it hands to
`MakeEndpoints` is `LoggingMiddleware(logger)(NewAuthorisationService(declineAmount))`
with `logger` the logger it returns: the base service carries `declineAmount`
unchanged, the logging decorator is applied once and is outermost, the two
constructor calls are the only ones that build a `Service`, and the router
behind the returned handler dispatches to that same service. -/
theorem WireUp_hands_logged_decision_service (g : Globals) (ctx : context.Context)
    (declineAmount : float32) (tracer : stdopentracing.Tracer) (serviceName : String) :
    ∃ inst logger router calls,
      WireUp g ctx declineAmount tracer serviceName [] =
        .ok ((Handler.instrumented inst (.router router), logger), calls) ∧
      calls.filterMap Call.serviceForEndpoints =
        [Service.LoggingMiddleware logger (Service.NewAuthorisationService declineAmount)] ∧
      calls.filterMap Call.builtService =
        [Service.NewAuthorisationService declineAmount,
         Service.LoggingMiddleware logger (Service.NewAuthorisationService declineAmount)] ∧
      router.service =
        Service.LoggingMiddleware logger (Service.NewAuthorisationService declineAmount) ∧
      router.service.decorators = 1 ∧
      router.service.base = Service.NewAuthorisationService declineAmount :=
  ⟨_, _, _, _, rfl, rfl, rfl, rfl, rfl, rfl⟩

/-- C2: for every input the handler `WireUp` returns is the `Instrument`
middleware wrapped directly around the router built by `MakeHTTPHandler`;
`middleware.Merge` of a one-element list wraps like its single element; the
`RouteMatcher` of that `Instrument` is the router it wraps; and the layers
are Instrumentation, Router, Endpoints, Logging decorator, Decision
Service, outermost first. -/
theorem WireUp_handler_is_instrumented_router (g : Globals) (ctx : context.Context)
    (declineAmount : float32) (tracer : stdopentracing.Tracer) (serviceName : String) :
    ∃ handler logger calls inst router,
      WireUp g ctx declineAmount tracer serviceName [] = .ok ((handler, logger), calls) ∧
      router = Router.MakeHTTPHandler ctx
        (Endpoints.MakeEndpoints
          (Service.LoggingMiddleware logger (Service.NewAuthorisationService declineAmount))
          tracer)
        logger tracer ∧
      handler = (middleware.Merge [middleware.Interface.Instrument inst]).Wrap (.router router) ∧
      (∀ (m : middleware.Interface) (next : Handler),
        (middleware.Merge [m]).Wrap next = m.Wrap next) ∧
      handler = Handler.instrumented inst (.router router) ∧
      inst.RouteMatcher = router ∧
      handler.layers = [Layer.Instrumentation, Layer.Router, Layer.Endpoints,
        Layer.LoggingDecorator, Layer.DecisionService] :=
  ⟨_, _, _, _, _, rfl, rfl, rfl, fun _ _ => rfl, rfl, rfl, rfl⟩

/-- C3: for the service that `WireUp` composes, every context and every
request, `Authorise` on the logging decorator around the base service
returns the result of `Authorise` on the base service, and what the call
does is one evaluation of the base service followed by one log entry. -/
theorem WireUp_service_transparent (g : Globals) (ctx : context.Context)
    (declineAmount : float32) (tracer : stdopentracing.Tracer) (serviceName : String)
    (callCtx : context.Context) (req : AuthorisationRequest) :
    ∃ handler logger calls service,
      WireUp g ctx declineAmount tracer serviceName [] = .ok ((handler, logger), calls) ∧
      calls.filterMap Call.serviceForEndpoints = [service] ∧
      service =
        Service.LoggingMiddleware logger (Service.NewAuthorisationService declineAmount) ∧
      (service.Authorise callCtx req).1 =
        ((Service.NewAuthorisationService declineAmount).Authorise callCtx req).1 ∧
      (service.Authorise callCtx req).2 =
        ((Service.NewAuthorisationService declineAmount).Authorise callCtx req).2 ++
          [Observation.logged logger
            (logger.Log (logKeyvals req
              ((Service.NewAuthorisationService declineAmount).Authorise callCtx req).1))] ∧
      ((Service.NewAuthorisationService declineAmount).Authorise callCtx req).2 =
        [Observation.evaluated declineAmount req] :=
  ⟨_, _, _, _, rfl, rfl, rfl, rfl, rfl, rfl⟩

/-- C9: the logger `WireUp` returns is the logger handed to the logging
decorator and to the router. It is the context logger that two `log.With`
calls build on `log.NewLogfmtLogger(os.Stderr)`: its base logger is logfmt on
standard error, it holds key "ts" bound to `DefaultTimestampUTC` followed by
key "caller" bound to `DefaultCaller`, and its `hasValuer` flag is set. So
every entry written through it starts with "ts" and the clock reading in
UTC, then "caller" and the call site, followed by the entry's own pairs. -/
theorem WireUp_logger_shared_and_bound (g : Globals) (ctx : context.Context)
    (declineAmount : float32) (tracer : stdopentracing.Tracer) (serviceName : String) :
    ∃ handler logger calls,
      WireUp g ctx declineAmount tracer serviceName [] = .ok ((handler, logger), calls) ∧
      calls.filterMap Call.decoratorLogger = [logger] ∧
      calls.filterMap Call.routerLogger = [logger] ∧
      logger =
        log.With (log.With (log.NewLogfmtLogger os.File.Stderr)
          [.str "ts", .valuer .DefaultTimestampUTC]) [.str "caller", .valuer .DefaultCaller] ∧
      logger =
        log.Logger.context (log.BaseLogger.logfmt os.File.Stderr)
          [.str "ts", .valuer .DefaultTimestampUTC, .str "caller", .valuer .DefaultCaller]
          true ∧
      ∀ (keyvals : List log.Value) (env : log.Env),
        logger.Log keyvals env =
          [.str "ts", .time env.now .UTC, .str "caller", .caller env.callSite] ++
            keyvals ++ (if keyvals.length % 2 ≠ 0 then [log.Value.ErrMissingValue] else []) := by
  refine ⟨_, _, _, rfl, rfl, rfl, rfl, rfl, ?_⟩
  intro keyvals env
  cases keyvals with
  | nil => rfl
  | cons k ks =>
    by_cases hk : (ks.length + 1) % 2 = 1
    · have h : (ks.length + 1 + 1 + 1 + 1 + 1) % 2 = 1 := by omega
      simp [log.Logger.Log, log.With, log.NewLogfmtLogger, log.newContext, log.containsValuer,
        log.bindValues, log.Valuer.eval, h, hk]
    · have h : ¬ (ks.length + 1 + 1 + 1 + 1 + 1) % 2 = 1 := by omega
      simp [log.Logger.Log, log.With, log.NewLogfmtLogger, log.newContext, log.containsValuer,
        log.bindValues, log.Valuer.eval, h, hk]

/-- C10: `WireUp` does not depend on `serviceName`: for any two names it is
the same computation (same calls, same handler, same logger). The only call
that receives `ctx` is `MakeHTTPHandler`, and the calls that receive a tracer
are `MakeEndpoints` and `MakeHTTPHandler`, each with the `tracer` given. -/
theorem WireUp_ignores_serviceName (g : Globals) (ctx : context.Context)
    (declineAmount : float32) (tracer : stdopentracing.Tracer) (s1 s2 : String) :
    WireUp g ctx declineAmount tracer s1 = WireUp g ctx declineAmount tracer s2 ∧
    ∃ handler logger calls,
      WireUp g ctx declineAmount tracer s1 [] = .ok ((handler, logger), calls) ∧
      (calls.filter fun c => !c.contexts.isEmpty).map Call.name = ["MakeHTTPHandler"] ∧
      calls.map Call.contexts = [[], [], [], [], [], [], [ctx], [], []] ∧
      (calls.filter fun c => !c.tracers.isEmpty).map Call.name =
        ["MakeEndpoints", "MakeHTTPHandler"] ∧
      calls.map Call.tracers = [[], [], [], [], [], [tracer], [tracer], [], []] :=
  ⟨rfl, _, _, _, rfl, rfl, rfl, rfl, rfl⟩

/-! ## The collectors -/

/-- C4, refuted as stated: the fourth label of the request duration
histogram is not named "is_websocket". -/
theorem latency_labels_not_as_spec :
    ¬ ∃ g calls, initVars [] = .ok (g, calls) ∧
      g.HTTPLatency.labelNames = ["method", "path", "status_code", "is_websocket"] ∧
      g.HTTPRequestActive.labelNames = ["method", "path"] ∧
      g.HTTPRequestSizeBytes.labelNames = ["method", "handler"] ∧
      g.HTTPResponseSizeBytes.labelNames = ["method", "handler"] := by
  rintro ⟨g, calls, h, hl, -⟩
  rw [initVars_run] at h
  simp only [Except.ok.injEq, Prod.mk.injEq] at h
  obtain ⟨rfl, -⟩ := h
  simp at hl

/-- C4, amended: the variable initialisers succeed and give four
collectors with these label names, in this order: the request duration
histogram {method, path, status_code, isWS}; the in-flight gauge
{method, path}; the request-size histogram and the response-size histogram
{method, handler} each. -/
theorem collectors_label_names :
    ∃ g calls, initVars [] = .ok (g, calls) ∧
      g.HTTPLatency.kind = prometheus.Kind.HistogramVec ∧
      g.HTTPLatency.labelNames = ["method", "path", "status_code", "isWS"] ∧
      g.HTTPRequestActive.kind = prometheus.Kind.GaugeVec ∧
      g.HTTPRequestActive.labelNames = ["method", "path"] ∧
      g.HTTPRequestSizeBytes.kind = prometheus.Kind.HistogramVec ∧
      g.HTTPRequestSizeBytes.labelNames = ["method", "handler"] ∧
      g.HTTPResponseSizeBytes.kind = prometheus.Kind.HistogramVec ∧
      g.HTTPResponseSizeBytes.labelNames = ["method", "handler"] :=
  ⟨_, _, initVars_run [], rfl, rfl, rfl, rfl, rfl, rfl, rfl, rfl⟩

/-- C5: `ExponentialBuckets(100, 10, 6)` returns the six boundaries
100, 1000, 10000, 100000, 1000000, 10000000; the request-size and the
response-size histogram both carry exactly these; they are strictly
increasing, the i-th is `100 * 10^i`, the smallest is 100 and the largest
10,000,000; and each is a natural number below `2^53`. -/
theorem size_histograms_buckets :
    prometheus.ExponentialBuckets 100 10 6 =
      .ok [100, 1000, 10000, 100000, 1000000, 10000000] ∧
    ∃ g calls, initVars [] = .ok (g, calls) ∧
      g.HTTPRequestSizeBytes.Buckets = [100, 1000, 10000, 100000, 1000000, 10000000] ∧
      g.HTTPResponseSizeBytes.Buckets = g.HTTPRequestSizeBytes.Buckets ∧
      g.HTTPRequestSizeBytes.Buckets.length = 6 ∧
      g.HTTPRequestSizeBytes.Buckets.Pairwise (· < ·) ∧
      g.HTTPRequestSizeBytes.Buckets = (List.range 6).map (fun i => (100 : ℚ) * 10 ^ i) ∧
      g.HTTPRequestSizeBytes.Buckets.head? = some 100 ∧
      g.HTTPRequestSizeBytes.Buckets.getLast? = some 10000000 ∧
      ∃ ns : List ℕ, g.HTTPRequestSizeBytes.Buckets = ns.map (fun n => (n : ℚ)) ∧
        ns.all (fun n => decide (n < 2 ^ 53)) = true := by
  refine ⟨ExponentialBuckets_sizes, _, _, initVars_run [], rfl, rfl, rfl, ?_, ?_, rfl, rfl,
    [100, 1000, 10000, 100000, 1000000, 10000000], ?_, ?_⟩
  · norm_num
  · norm_num [List.range, List.range.loop]
  · norm_num
  · decide

/-- C6: after a package initialisation that succeeded with variables `g`,
every `WireUp` builds one `Instrument` whose `Duration` is the duration
histogram `http_request_duration_seconds`, whose `InflightRequests` is the
gauge `http_request_active`, whose `RequestBodySize` is the histogram
`http_request_size_bytes` and whose `ResponseBodySize` is the histogram
`http_response_size_bytes`; these four are the collectors that the
initialisation created (four creations) and that `init` registered; a second
`WireUp` uses the same four, and no `WireUp` creates or registers a
collector. -/
theorem WireUp_injects_registered_collectors (r0 r1 : prometheus.Registry) (g : Globals)
    (calls0 : List Call) (hinit : packageInit r0 [] = .ok ((g, r1), calls0))
    (ctx : context.Context) (declineAmount : float32) (tracer : stdopentracing.Tracer)
    (serviceName : String)
    (ctx2 : context.Context) (declineAmount2 : float32) (tracer2 : stdopentracing.Tracer)
    (serviceName2 : String) :
    ∃ handler logger calls inst handler2 logger2 calls2,
      WireUp g ctx declineAmount tracer serviceName [] = .ok ((handler, logger), calls) ∧
      handler.instruments = [inst] ∧
      inst.Duration = g.HTTPLatency ∧
      inst.InflightRequests = g.HTTPRequestActive ∧
      inst.RequestBodySize = g.HTTPRequestSizeBytes ∧
      inst.ResponseBodySize = g.HTTPResponseSizeBytes ∧
      inst.collectors.map (fun c => (c.kind, c.Name)) =
        [(prometheus.Kind.HistogramVec, "http_request_duration_seconds"),
         (prometheus.Kind.GaugeVec, "http_request_active"),
         (prometheus.Kind.HistogramVec, "http_request_size_bytes"),
         (prometheus.Kind.HistogramVec, "http_response_size_bytes")] ∧
      (calls0.map Call.registers).flatten = inst.collectors ∧
      r1 = r0 ++ inst.collectors ∧
      (calls0.filter Call.createsCollector).length = 4 ∧
      calls.all (fun c => !c.createsCollector && c.registers.isEmpty) = true ∧
      WireUp g ctx2 declineAmount2 tracer2 serviceName2 [] = .ok ((handler2, logger2), calls2) ∧
      handler2.instruments.map middleware.Instrument.collectors =
        handler.instruments.map middleware.Instrument.collectors ∧
      calls2.all (fun c => !c.createsCollector && c.registers.isEmpty) = true := by
  obtain ⟨callsV, hv, hr, hc⟩ := packageInit_inv _ _ _ _ _ hinit
  rw [initVars_run] at hv
  simp only [Except.ok.injEq, Prod.mk.injEq] at hv
  obtain ⟨rfl, rfl⟩ := hv
  subst hr hc
  exact ⟨_, _, _, _, _, _, _, rfl, rfl, rfl, rfl, rfl, rfl, rfl, rfl, rfl, rfl, rfl, rfl, rfl, rfl⟩

/-- C6 at a concrete input: initialisation from an empty registry succeeds,
and two `WireUp` calls with different arguments share its collectors. -/
theorem WireUp_injects_registered_collectors_witness :
    ∃ (g : Globals) (r1 : prometheus.Registry) (calls0 : List Call),
      packageInit [] [] = .ok ((g, r1), calls0) ∧
      ∃ handler logger calls inst handler2 logger2 calls2,
        WireUp g ⟨0⟩ (.finite 100) ⟨1⟩ "payment" [] = .ok ((handler, logger), calls) ∧
        handler.instruments = [inst] ∧
        inst.Duration = g.HTTPLatency ∧
        inst.InflightRequests = g.HTTPRequestActive ∧
        inst.RequestBodySize = g.HTTPRequestSizeBytes ∧
        inst.ResponseBodySize = g.HTTPResponseSizeBytes ∧
        inst.collectors.map (fun c => (c.kind, c.Name)) =
          [(prometheus.Kind.HistogramVec, "http_request_duration_seconds"),
           (prometheus.Kind.GaugeVec, "http_request_active"),
           (prometheus.Kind.HistogramVec, "http_request_size_bytes"),
           (prometheus.Kind.HistogramVec, "http_response_size_bytes")] ∧
        (calls0.map Call.registers).flatten = inst.collectors ∧
        r1 = [] ++ inst.collectors ∧
        (calls0.filter Call.createsCollector).length = 4 ∧
        calls.all (fun c => !c.createsCollector && c.registers.isEmpty) = true ∧
        WireUp g ⟨7⟩ (.finite 20) ⟨8⟩ "other" [] = .ok ((handler2, logger2), calls2) ∧
        handler2.instruments.map middleware.Instrument.collectors =
          handler.instruments.map middleware.Instrument.collectors ∧
        calls2.all (fun c => !c.createsCollector && c.registers.isEmpty) = true :=
  have h := packageInit_run [] _ [] _ (initVars_run [])
    (by simp) (by simp)
  ⟨_, _, _, h, WireUp_injects_registered_collectors [] _ _ _ h ⟨0⟩ (.finite 100) ⟨1⟩ "payment"
    ⟨7⟩ (.finite 20) ⟨8⟩ "other"⟩

/-- C7: started on a registry that holds none of the four metric names,
package initialisation does not panic; `init` makes four `MustRegister`
calls, one per collector, and adds exactly the latency histogram, the
in-flight gauge, the request-size histogram and the response-size histogram
to the registry, each once; their four names are pairwise distinct. -/
theorem init_registers_four_collectors_once (r0 : prometheus.Registry)
    (hfresh : ∀ c ∈ r0, c.Name ∉ ["http_request_duration_seconds", "http_request_active",
      "http_request_size_bytes", "http_response_size_bytes"]) :
    ∃ g calls,
      packageInit r0 [] = .ok ((g, r0 ++ [g.HTTPLatency, g.HTTPRequestActive,
        g.HTTPRequestSizeBytes, g.HTTPResponseSizeBytes]), calls) ∧
      calls.map Call.registers = [[], [], [], [], [], [], [g.HTTPLatency],
        [g.HTTPRequestActive], [g.HTTPRequestSizeBytes], [g.HTTPResponseSizeBytes]] ∧
      [g.HTTPLatency, g.HTTPRequestActive, g.HTTPRequestSizeBytes,
        g.HTTPResponseSizeBytes].map (fun c => (c.kind, c.Name)) =
        [(prometheus.Kind.HistogramVec, "http_request_duration_seconds"),
         (prometheus.Kind.GaugeVec, "http_request_active"),
         (prometheus.Kind.HistogramVec, "http_request_size_bytes"),
         (prometheus.Kind.HistogramVec, "http_response_size_bytes")] ∧
      ([g.HTTPLatency, g.HTTPRequestActive, g.HTTPRequestSizeBytes,
        g.HTTPResponseSizeBytes].map (fun c => c.Name)).Nodup :=
  ⟨_, _, packageInit_run r0 _ [] _ (initVars_run []) hfresh (by simp), rfl, rfl, by simp⟩

/-- C7 at a concrete input: a registry that already holds the collector
`go_goroutines`. -/
theorem init_registers_four_collectors_once_witness :
    (∀ c ∈ ([⟨.GaugeVec, "go_goroutines", "Number of goroutines that currently exist.", [], []⟩] :
        prometheus.Registry),
      c.Name ∉ ["http_request_duration_seconds", "http_request_active",
        "http_request_size_bytes", "http_response_size_bytes"]) ∧
    ∃ g calls,
      packageInit [⟨.GaugeVec, "go_goroutines", "Number of goroutines that currently exist.",
          [], []⟩] [] =
        .ok ((g, [⟨.GaugeVec, "go_goroutines", "Number of goroutines that currently exist.",
          [], []⟩] ++ [g.HTTPLatency, g.HTTPRequestActive,
          g.HTTPRequestSizeBytes, g.HTTPResponseSizeBytes]), calls) ∧
      calls.map Call.registers = [[], [], [], [], [], [], [g.HTTPLatency],
        [g.HTTPRequestActive], [g.HTTPRequestSizeBytes], [g.HTTPResponseSizeBytes]] ∧
      [g.HTTPLatency, g.HTTPRequestActive, g.HTTPRequestSizeBytes,
        g.HTTPResponseSizeBytes].map (fun c => (c.kind, c.Name)) =
        [(prometheus.Kind.HistogramVec, "http_request_duration_seconds"),
         (prometheus.Kind.GaugeVec, "http_request_active"),
         (prometheus.Kind.HistogramVec, "http_request_size_bytes"),
         (prometheus.Kind.HistogramVec, "http_response_size_bytes")] ∧
      ([g.HTTPLatency, g.HTTPRequestActive, g.HTTPRequestSizeBytes,
        g.HTTPResponseSizeBytes].map (fun c => c.Name)).Nodup :=
  ⟨by simp, init_registers_four_collectors_once _ (by simp)⟩

/-! ## The decision -/

/-- C8: let a service have a base decision service with threshold `T` at
the bottom of its decorator chain (the base service itself, or the service
`WireUp` composes). On a finite, non-negative amount `a`, `Authorise`
returns Declined when `a >= T` and Approved otherwise. With `T = 100.0` the
amount `50.0` is approved and the amount `150.0` is declined. -/
theorem Authorise_declines_from_threshold (T : float32) (q : ℚ) (hq : 0 ≤ q)
    (service : Service) (hbase : service.base = Service.NewAuthorisationService T)
    (ctx : context.Context) :
    (float32.ge (.finite q) T = true →
      (service.Authorise ctx { amount := .finite q }).1 = .ok { decision := .Declined }) ∧
    (float32.ge (.finite q) T = false →
      (service.Authorise ctx { amount := .finite q }).1 = .ok { decision := .Approved }) ∧
    ((Service.NewAuthorisationService (.finite 100)).Authorise ctx { amount := .finite 50 }).1 =
      .ok { decision := .Approved } ∧
    ((Service.NewAuthorisationService (.finite 100)).Authorise ctx { amount := .finite 150 }).1 =
      .ok { decision := .Declined } := by
  have hgen : (service.Authorise ctx { amount := .finite q }).1 =
      evaluate T { amount := .finite q } := by
    induction service with
    | NewAuthorisationService d =>
      simp only [Service.base, Service.NewAuthorisationService.injEq] at hbase
      subst hbase
      rfl
    | LoggingMiddleware logger next ih =>
      simp only [Service.base] at hbase
      simpa [Service.Authorise] using ih hbase
  have hvalid : ((float32.finite q).isFinite && float32.ge (.finite q) (.finite 0)) = true := by
    simp [float32.isFinite, float32.ge, float32.le, hq]
  refine ⟨fun h => ?_, fun h => ?_, ?_, ?_⟩
  · rw [hgen]
    simp [evaluate, hvalid, h]
  · rw [hgen]
    simp [evaluate, hvalid, h]
  · norm_num [Service.Authorise, evaluate, float32.isFinite, float32.ge, float32.le]
  · norm_num [Service.Authorise, evaluate, float32.isFinite, float32.ge, float32.le]

/-- C8 at a concrete input: threshold `100.0`, amount `100.0` (the boundary),
on the logging decorator around the base service. -/
theorem Authorise_declines_from_threshold_witness :
    (0 : ℚ) ≤ 100 ∧
    (Service.LoggingMiddleware (log.NewLogfmtLogger .Stderr)
      (Service.NewAuthorisationService (.finite 100))).base =
        Service.NewAuthorisationService (.finite 100) ∧
    (float32.ge (.finite 100) (.finite 100) = true →
      ((Service.LoggingMiddleware (log.NewLogfmtLogger .Stderr)
        (Service.NewAuthorisationService (.finite 100))).Authorise ⟨0⟩
          { amount := .finite 100 }).1 = .ok { decision := .Declined }) ∧
    (float32.ge (.finite 100) (.finite 100) = false →
      ((Service.LoggingMiddleware (log.NewLogfmtLogger .Stderr)
        (Service.NewAuthorisationService (.finite 100))).Authorise ⟨0⟩
          { amount := .finite 100 }).1 = .ok { decision := .Approved }) ∧
    ((Service.NewAuthorisationService (.finite 100)).Authorise ⟨0⟩ { amount := .finite 50 }).1 =
      .ok { decision := .Approved } ∧
    ((Service.NewAuthorisationService (.finite 100)).Authorise ⟨0⟩ { amount := .finite 150 }).1 =
      .ok { decision := .Declined } :=
  ⟨by norm_num, rfl,
    Authorise_declines_from_threshold (.finite 100) 100 (by norm_num)
      (Service.LoggingMiddleware (log.NewLogfmtLogger .Stderr)
        (Service.NewAuthorisationService (.finite 100))) rfl ⟨0⟩⟩

end Payment
